import Mathlib

/-!
Verification of the execution core of the engine262 ECMAScript interpreter:
the assignment-expression runtime semantics, the realm construction protocol
(intrinsics bootstrap, global object wiring, default global bindings), and the
worker-level module evaluation and promise-rejection tracking.

Shallow embedding conventions:
  - ECMAScript language values are the inductive `JSValue`; object identity is
    a heap index.
  - Completion Records are the polymorphic `Completion` type; the Q /
    ReturnIfAbrupt propagation discipline of completion.mjs is rendered as
    explicit matches on abrupt constructors.
  - JavaScript functions that can fall off their end without an explicit
    return (yielding host-level undefined rather than a Completion) return an
    `Option (Completion _)`, with `none` for the fall-through.
-/

namespace E262

/-- ECMAScript language values. Numbers are split into finite integers,
infinities and NaN so that the special global value properties are
representable without floating point. Objects are heap indices. -/
inductive JSValue where
  | undefV
  | nullV
  | boolV (b : Bool)
  | numV (n : Int)
  | infV
  | nanV
  | strV (s : String)
  | objV (id : Nat)
deriving Repr, DecidableEq

/-- The four abrupt completion kinds of the Completion Record algebra. -/
inductive AbruptKind where
  | throwK
  | returnK
  | breakK
  | continueK
deriving Repr, DecidableEq

/-- Completion Record: a normal completion carrying a payload, or an abrupt
completion carrying its kind, a language value and an optional label target. -/
inductive Completion (α : Type) where
  | normal (v : α)
  | abrupt (k : AbruptKind) (v : JSValue) (target : Option String)
deriving Repr, DecidableEq

/-- Association-list lookup keyed by strings (property tables, environments,
intrinsics tables). -/
def lookupA {β : Type} (k : String) : List (String × β) → Option β
  | [] => none
  | (k2, v) :: rest => if k2 = k then some v else lookupA k rest

/-- Association-list update: overwrite the binding for `k` if present,
otherwise append it. -/
def updateA {β : Type} (k : String) (v : β) : List (String × β) → List (String × β)
  | [] => [(k, v)]
  | (k2, v2) :: rest => if k2 = k then (k2, v) :: rest else (k2, v2) :: updateA k v rest

namespace Assign

/-- Base of a Reference: an Environment Record or the unresolvable marker.
Modelled from the spec: a Reference's base is an Environment Record, an object
value, or an unresolvable marker; the expressions of this model only produce
environment and unresolvable bases. -/
inductive RefBase where
  | envBase
  | unresolvable
deriving Repr, DecidableEq

/-- Modelled from the spec: a Reference is a resolved-but-unread binding
locator (base + referenced name + strict flag). -/
structure Reference where
  base : RefBase
  referencedName : String
  strict : Bool
deriving Repr, DecidableEq

/-- Result of evaluating an expression: a Reference or a direct value. -/
inductive RV where
  | ref (r : Reference)
  | val (v : JSValue)
deriving Repr, DecidableEq

/-- Evaluation state: one (global) mutable environment of bindings, and a heap
of objects, each object being its own-property table. All bindings of this
model are mutable. -/
structure EvalState where
  env : List (String × JSValue)
  heap : List (List (String × JSValue))
deriving Repr, DecidableEq

/-- Modelled from the spec: the AST shape consumed by the assignment
evaluator. Sub-expressions of an assignment node cover literals, identifier
references, object/array literal (destructuring-pattern) positions, function
expressions (anonymous or named), an expression with an observable side
effect (increments a counter binding, then evaluates its inner expression,
standing for spec section 8's target-with-side-effect), and a throwing
expression. -/
inductive Expr where
  | lit (v : JSValue)
  | ident (name : String)
  | objectLiteral
  | arrayLiteral
  | funcExpr (fname : Option String)
  | seqInc (counter : String) (inner : Expr)
  | throwExpr (v : JSValue)
deriving Repr, DecidableEq

/-- Modelled from the spec: ast.mjs node-kind test used to detect a
destructuring-pattern position. -/
def isObjectLiteral : Expr → Bool
  | .objectLiteral => true
  | _ => false

/-- Modelled from the spec: ast.mjs node-kind test used to detect a
destructuring-pattern position. -/
def isArrayLiteral : Expr → Bool
  | .arrayLiteral => true
  | _ => false

/-- Modelled from the spec: static semantics — an anonymous function/class
definition; in this expression language, a function expression with no name. -/
def IsAnonymousFunctionDefinition : Expr → Bool
  | .funcExpr none => true
  | _ => false

/-- Modelled from the spec: static semantics — the target is a plain
identifier reference. -/
def IsIdentifierRef : Expr → Bool
  | .ident _ => true
  | _ => false

/-- Modelled from the spec: the runtime-semantics evaluation dispatch of
evaluator.mjs for the sub-expressions of an assignment. Identifiers resolve to
environment References (unresolvable if unbound); literals yield values;
object/array literals and function expressions allocate fresh heap objects
(a named function expression carries an own "name" property, an anonymous one
does not, so that the name-inference step of assignment is observable);
`seqInc` increments its counter binding and evaluates its inner expression;
`throwExpr` yields an abrupt throw completion. -/
def Evaluate_Expression : Expr → EvalState → Completion RV × EvalState
  | .lit v, s => (.normal (.val v), s)
  | .ident n, s =>
      match lookupA n s.env with
      | some _ => (.normal (.ref ⟨.envBase, n, false⟩), s)
      | none => (.normal (.ref ⟨.unresolvable, n, false⟩), s)
  | .objectLiteral, s =>
      (.normal (.val (.objV s.heap.length)), { s with heap := s.heap ++ [[]] })
  | .arrayLiteral, s =>
      (.normal (.val (.objV s.heap.length)), { s with heap := s.heap ++ [[]] })
  | .funcExpr none, s =>
      (.normal (.val (.objV s.heap.length)), { s with heap := s.heap ++ [[]] })
  | .funcExpr (some f), s =>
      (.normal (.val (.objV s.heap.length)),
        { s with heap := s.heap ++ [[("name", .strV f)]] })
  | .seqInc c inner, s =>
      let old : Int :=
        match lookupA c s.env with
        | some (.numV n) => n
        | _ => 0
      Evaluate_Expression inner { s with env := updateA c (.numV (old + 1)) s.env }
  | .throwExpr v, s => (.abrupt .throwK v none, s)

/-- Modelled from the spec: GetValue. A non-Reference is returned unchanged;
an unresolvable base yields a Throw (ReferenceError); an environment base
delegates to the binding lookup (Throw ReferenceError if the binding is
absent). -/
def GetValue (w : RV) (s : EvalState) : Completion JSValue × EvalState :=
  match w with
  | .val v => (.normal v, s)
  | .ref r =>
      match r.base with
      | .unresolvable => (.abrupt .throwK (.strV "ReferenceError") none, s)
      | .envBase =>
          match lookupA r.referencedName s.env with
          | some v => (.normal v, s)
          | none => (.abrupt .throwK (.strV "ReferenceError") none, s)

/-- Modelled from the spec: PutValue. A non-Reference yields a Throw
(ReferenceError); an unresolvable base silently creates a global binding in
non-strict mode and throws in strict mode; an environment base delegates to
SetMutableBinding (all bindings of this model are mutable). -/
def PutValue (w : RV) (v : JSValue) (s : EvalState) : Completion JSValue × EvalState :=
  match w with
  | .val _ => (.abrupt .throwK (.strV "ReferenceError") none, s)
  | .ref r =>
      match r.base with
      | .unresolvable =>
          if r.strict then (.abrupt .throwK (.strV "ReferenceError") none, s)
          else (.normal .undefV, { s with env := updateA r.referencedName v s.env })
      | .envBase =>
          (.normal .undefV, { s with env := updateA r.referencedName v s.env })

/-- Modelled from the spec: GetReferencedName — the referenced-name component
of a Reference (dummy on a non-Reference, a path the source asserts away). -/
def GetReferencedName (w : RV) : String :=
  match w with
  | .ref r => r.referencedName
  | .val _ => ""

/-- Modelled from the spec: the HasOwnProperty abstract operation, consulting
the own-property table of a heap object (false on non-objects, a path the
source asserts away). -/
def HasOwnProperty (v : JSValue) (p : String) (s : EvalState) :
    Completion Bool × EvalState :=
  match v with
  | .objV id =>
      match s.heap.get? id with
      | some props => (.normal (lookupA p props).isSome, s)
      | none => (.normal false, s)
  | _ => (.normal false, s)

/-- Modelled from the spec: SetFunctionName — install the given name as the
"name" own property of the function object. -/
def SetFunctionName (v : JSValue) (fname : String) (s : EvalState) : EvalState :=
  match v with
  | .objV id =>
      match s.heap.get? id with
      | some props => { s with heap := s.heap.set id (updateA "name" (.strV fname) props) }
      | none => s
  | _ => s

/-- Modelled from the spec: EvaluateBinopValues — pure dispatch on
(operator, left, right). Numeric addition/subtraction/multiplication on
finite numbers; string concatenation for `+`; other operand combinations of
the modelled operators produce NaN; unmodelled operators yield undefined. -/
def EvaluateBinopValues (op : String) (lval rval : JSValue) : Completion JSValue :=
  if op = "+" then
    match lval, rval with
    | .numV a, .numV b => .normal (.numV (a + b))
    | .strV a, .strV b => .normal (.strV (a ++ b))
    | _, _ => .normal .nanV
  else if op = "-" then
    match lval, rval with
    | .numV a, .numV b => .normal (.numV (a - b))
    | _, _ => .normal .nanV
  else if op = "*" then
    match lval, rval with
    | .numV a, .numV b => .normal (.numV (a * b))
    | _, _ => .normal .nanV
  else
    .normal .undefV

/-- An assignment AST node: operator token, target and source expressions. -/
structure AssignNode where
  operator : String
  left : Expr
  right : Expr
deriving Repr, DecidableEq

/-- Translation of Evaluate_AssignmentExpression from
src/runtime-semantics/AssignmentExpression.mjs. The Q / ReturnIfAbrupt macro
discipline is rendered as explicit matches that return the abrupt completion
unchanged; the JavaScript fall-through (plain `=` with an object/array literal
target, where the function ends without a return statement and so yields
host-level undefined) is rendered as `none`. -/
def Evaluate_AssignmentExpression (node : AssignNode) (s : EvalState) :
    Option (Completion JSValue) × EvalState :=
  let LeftHandSideExpression := node.left
  let AssignmentExpression := node.right
  if node.operator = "=" then
    if !isObjectLiteral LeftHandSideExpression && !isArrayLiteral LeftHandSideExpression then
      match Evaluate_Expression LeftHandSideExpression s with
      | (.abrupt k v t, s1) => (some (.abrupt k v t), s1)
      | (.normal lref, s1) =>
        match Evaluate_Expression AssignmentExpression s1 with
        | (.abrupt k v t, s2) => (some (.abrupt k v t), s2)
        | (.normal rref, s2) =>
          match GetValue rref s2 with
          | (.abrupt k v t, s3) => (some (.abrupt k v t), s3)
          | (.normal rval, s3) =>
            if IsAnonymousFunctionDefinition AssignmentExpression
                && IsIdentifierRef LeftHandSideExpression then
              match HasOwnProperty rval "name" s3 with
              | (.abrupt k v t, s4) => (some (.abrupt k v t), s4)
              | (.normal hasNameProperty, s4) =>
                let s5 :=
                  if hasNameProperty = false then
                    SetFunctionName rval (GetReferencedName lref) s4
                  else s4
                match PutValue lref rval s5 with
                | (.abrupt k v t, s6) => (some (.abrupt k v t), s6)
                | (.normal _, s6) => (some (.normal rval), s6)
            else
              match PutValue lref rval s3 with
              | (.abrupt k v t, s4) => (some (.abrupt k v t), s4)
              | (.normal _, s4) => (some (.normal rval), s4)
    else
      (none, s)
  else
    let AssignmentOperator := node.operator
    match Evaluate_Expression LeftHandSideExpression s with
    | (.abrupt k v t, s1) => (some (.abrupt k v t), s1)
    | (.normal lref, s1) =>
      match GetValue lref s1 with
      | (.abrupt k v t, s2) => (some (.abrupt k v t), s2)
      | (.normal lval, s2) =>
        match Evaluate_Expression AssignmentExpression s2 with
        | (.abrupt k v t, s3) => (some (.abrupt k v t), s3)
        | (.normal rref, s3) =>
          match GetValue rref s3 with
          | (.abrupt k v t, s4) => (some (.abrupt k v t), s4)
          | (.normal rval, s4) =>
            let op := AssignmentOperator.dropRight 1
            match EvaluateBinopValues op lval rval with
            | .abrupt k v t => (some (.abrupt k v t), s4)
            | .normal r =>
              match PutValue lref r s4 with
              | (.abrupt k v t, s5) => (some (.abrupt k v t), s5)
              | (.normal _, s5) => (some (.normal r), s5)

/-- Own-property lookup on the heap: the value of property `p` of object `id`. -/
def ownProp (s : EvalState) (id : Nat) (p : String) : Option JSValue :=
  (s.heap.get? id).bind (fun props => lookupA p props)

end Assign

namespace Realms

/-- A property of an object: a data property descriptor or an accessor
property descriptor, with the boolean attributes of the specification. -/
inductive PropDesc where
  | data (value : JSValue) (writable enumerable configurable : Bool)
  | accessor (get set : JSValue) (enumerable configurable : Bool)
deriving Repr, DecidableEq

/-- Whether a property descriptor is enumerable. -/
def descEnumerable : PropDesc → Bool
  | .data _ _ en _ => en
  | .accessor _ _ en _ => en

/-- An allocated object: prototype slot, extensible slot and own-property
table. -/
structure HeapObj where
  Prototype : JSValue
  Extensible : Bool
  properties : List (String × PropDesc)
deriving Repr, DecidableEq

/-- The object heap; an object value `objV id` denotes index `id`. -/
abbrev Heap := List HeapObj

/-- Translation of MakeBasicObject: allocate an object with the Prototype and
Extensible internal slots, Extensible set to true (the additional-slots
parameter, unused by the realm protocol, is not modelled). -/
def MakeBasicObject (heap : Heap) : Heap × JSValue :=
  (heap ++ [{ Prototype := .undefV, Extensible := true, properties := [] }], .objV heap.length)

/-- Write the Prototype internal slot of an allocated object. -/
def setPrototype (heap : Heap) (o : JSValue) (proto : JSValue) : Heap :=
  match o with
  | .objV id =>
      match heap.get? id with
      | some obj => heap.set id { obj with Prototype := proto }
      | none => heap
  | _ => heap

/-- Translation of OrdinaryObjectCreate: MakeBasicObject, then set the
Prototype slot to the given prototype. -/
def OrdinaryObjectCreate (heap : Heap) (proto : JSValue) : Heap × JSValue :=
  let (h1, o) := MakeBasicObject heap
  (setPrototype h1 o proto, o)

/-- Translation of the ObjectEnvironmentRecord fields set by
NewObjectEnvironment. -/
structure ObjectEnvironmentRecord where
  BindingObject : JSValue
  IsWithEnvironment : Bool
  OuterEnv : JSValue
deriving Repr, DecidableEq

/-- Modelled from the spec: a Declarative Environment Record is a mapping from
binding names to values with an outer-environment link; a freshly constructed
record has no bindings. -/
structure DeclarativeEnvironmentRecord where
  OuterEnv : JSValue
  bindings : List (String × JSValue)
deriving Repr, DecidableEq

/-- Translation of the GlobalEnvironmentRecord fields set by
NewGlobalEnvironment. -/
structure GlobalEnvironmentRecord where
  ObjectRecord : ObjectEnvironmentRecord
  GlobalThisValue : JSValue
  DeclarativeRecord : DeclarativeEnvironmentRecord
  VarNames : List String
  OuterEnv : JSValue
deriving Repr, DecidableEq

/-- Translation of NewObjectEnvironment. -/
def NewObjectEnvironment (BindingObject : JSValue) (W : Bool) (OuterEnv : JSValue) :
    ObjectEnvironmentRecord :=
  { BindingObject := BindingObject, IsWithEnvironment := W, OuterEnv := OuterEnv }

/-- Translation of NewGlobalEnvironment: an Object record over the global
object with IsWithEnvironment false and null outer environment, a fresh empty
Declarative record, the given this value, an empty VarNames list, and a null
outer environment. -/
def NewGlobalEnvironment (GlobalObject : JSValue) (thisValue : JSValue) :
    GlobalEnvironmentRecord :=
  let objRec := NewObjectEnvironment GlobalObject false .nullV
  let dclRec : DeclarativeEnvironmentRecord := { OuterEnv := .nullV, bindings := [] }
  { ObjectRecord := objRec, GlobalThisValue := thisValue, DeclarativeRecord := dclRec,
    VarNames := [], OuterEnv := .nullV }

/-- Translation of the Realm record; GlobalEnv is `none` while it is still
the undefined placeholder. -/
structure Realm where
  Intrinsics : List (String × JSValue)
  GlobalObject : JSValue
  GlobalEnv : Option GlobalEnvironmentRecord
  TemplateMap : List Unit
deriving Repr, DecidableEq

/-- Intrinsics table access, `realmRec.Intrinsics[k]`: undefined if absent. -/
def intrinsicLookup (realmRec : Realm) (k : String) : JSValue :=
  (lookupA k realmRec.Intrinsics).getD .undefV

/-- Bootstrap execution state: the realm under construction, the heap, and
the ordered log of bootstrap routines executed so far. -/
structure BootState where
  realm : Realm
  heap : Heap
  log : List String
deriving Repr, DecidableEq

/-- Modelled from the spec: the bodies of the individual bootstrap routines
(bootstrapFunctionPrototype, bootstrapEval, ...) live outside this repository
slice; per the specification each routine creates its intrinsic objects as new
object values and registers them in the realm's intrinsics table. The routine
records its execution in the log and allocates one fresh object per intrinsic
key it owns. -/
def bootstrapRoutine (routine : String) (keys : List String) (st : BootState) : BootState :=
  keys.foldl
    (fun st2 key =>
      let (h, o) := OrdinaryObjectCreate st2.heap (intrinsicLookup st2.realm "%Object.prototype%")
      { st2 with
        heap := h,
        realm := { st2.realm with Intrinsics := st2.realm.Intrinsics ++ [(key, o)] } })
    { st with log := st.log ++ [routine] }

/-- The bootstrap call sequence of CreateIntrinsics, in source order, with the
intrinsic keys each routine owns (keys modelled from the spec's well-known
intrinsics table). -/
def intrinsicsBootstrapSequence : List (String × List String) :=
  [("bootstrapFunctionPrototype", ["%Function.prototype%"]),
   ("bootstrapObjectPrototype", []),
   ("bootstrapThrowTypeError", ["%ThrowTypeError%"]),
   ("bootstrapEval", ["%eval%"]),
   ("bootstrapIsFinite", ["%isFinite%"]),
   ("bootstrapIsNaN", ["%isNaN%"]),
   ("bootstrapParseFloat", ["%parseFloat%"]),
   ("bootstrapParseInt", ["%parseInt%"]),
   ("bootstrapURIHandling",
     ["%decodeURI%", "%decodeURIComponent%", "%encodeURI%", "%encodeURIComponent%"]),
   ("bootstrapObject", ["%Object%"]),
   ("bootstrapErrorPrototype", ["%Error.prototype%"]),
   ("bootstrapError", ["%Error%"]),
   ("bootstrapNativeError",
     ["%EvalError%", "%RangeError%", "%ReferenceError%", "%SyntaxError%", "%TypeError%",
      "%URIError%"]),
   ("bootstrapAggregateErrorPrototype", ["%AggregateError.prototype%"]),
   ("bootstrapAggregateError", ["%AggregateError%"]),
   ("bootstrapFunction", ["%Function%"]),
   ("bootstrapIteratorPrototype", ["%IteratorPrototype%"]),
   ("bootstrapAsyncIteratorPrototype", ["%AsyncIteratorPrototype%"]),
   ("bootstrapArrayIteratorPrototype", ["%ArrayIteratorPrototype%"]),
   ("bootstrapMapIteratorPrototype", ["%MapIteratorPrototype%"]),
   ("bootstrapSetIteratorPrototype", ["%SetIteratorPrototype%"]),
   ("bootstrapStringIteratorPrototype", ["%StringIteratorPrototype%"]),
   ("bootstrapRegExpStringIteratorPrototype", ["%RegExpStringIteratorPrototype%"]),
   ("bootstrapForInIteratorPrototype", ["%ForInIteratorPrototype%"]),
   ("bootstrapStringPrototype", ["%String.prototype%"]),
   ("bootstrapString", ["%String%"]),
   ("bootstrapArrayPrototype", ["%Array.prototype%"]),
   ("bootstrapArray", ["%Array%"]),
   ("bootstrapBooleanPrototype", ["%Boolean.prototype%"]),
   ("bootstrapBoolean", ["%Boolean%"]),
   ("bootstrapNumberPrototype", ["%Number.prototype%"]),
   ("bootstrapNumber", ["%Number%"]),
   ("bootstrapBigIntPrototype", ["%BigInt.prototype%"]),
   ("bootstrapBigInt", ["%BigInt%"]),
   ("bootstrapSymbolPrototype", ["%Symbol.prototype%"]),
   ("bootstrapSymbol", ["%Symbol%"]),
   ("bootstrapPromisePrototype", ["%Promise.prototype%"]),
   ("bootstrapPromise", ["%Promise%"]),
   ("bootstrapProxy", ["%Proxy%"]),
   ("bootstrapReflect", ["%Reflect%"]),
   ("bootstrapMath", ["%Math%"]),
   ("bootstrapDatePrototype", ["%Date.prototype%"]),
   ("bootstrapDate", ["%Date%"]),
   ("bootstrapRegExpPrototype", ["%RegExp.prototype%"]),
   ("bootstrapRegExp", ["%RegExp%"]),
   ("bootstrapSetPrototype", ["%Set.prototype%"]),
   ("bootstrapSet", ["%Set%"]),
   ("bootstrapMapPrototype", ["%Map.prototype%"]),
   ("bootstrapMap", ["%Map%"]),
   ("bootstrapGeneratorFunctionPrototypePrototype",
     ["%GeneratorFunction.prototype.prototype%"]),
   ("bootstrapGeneratorFunctionPrototype", ["%GeneratorFunction.prototype%"]),
   ("bootstrapGeneratorFunction", ["%GeneratorFunction%"]),
   ("bootstrapAsyncFunctionPrototype", ["%AsyncFunction.prototype%"]),
   ("bootstrapAsyncFunction", ["%AsyncFunction%"]),
   ("bootstrapAsyncGeneratorFunctionPrototypePrototype",
     ["%AsyncGeneratorFunction.prototype.prototype%"]),
   ("bootstrapAsyncGeneratorFunctionPrototype", ["%AsyncGeneratorFunction.prototype%"]),
   ("bootstrapAsyncGeneratorFunction", ["%AsyncGeneratorFunction%"]),
   ("bootstrapAsyncFromSyncIteratorPrototype", ["%AsyncFromSyncIteratorPrototype%"]),
   ("bootstrapArrayBufferPrototype", ["%ArrayBuffer.prototype%"]),
   ("bootstrapArrayBuffer", ["%ArrayBuffer%"]),
   ("bootstrapTypedArrayPrototype", ["%TypedArray.prototype%"]),
   ("bootstrapTypedArray", ["%TypedArray%"]),
   ("bootstrapTypedArrayPrototypes",
     ["%Int8Array.prototype%", "%Int16Array.prototype%", "%Int32Array.prototype%",
      "%Uint8Array.prototype%", "%Uint8ClampedArray.prototype%", "%Uint16Array.prototype%",
      "%Uint32Array.prototype%", "%Float32Array.prototype%", "%Float64Array.prototype%",
      "%BigInt64Array.prototype%", "%BigUint64Array.prototype%"]),
   ("bootstrapTypedArrayConstructors",
     ["%Int8Array%", "%Int16Array%", "%Int32Array%", "%Uint8Array%", "%Uint8ClampedArray%",
      "%Uint16Array%", "%Uint32Array%", "%Float32Array%", "%Float64Array%", "%BigInt64Array%",
      "%BigUint64Array%"]),
   ("bootstrapDataViewPrototype", ["%DataView.prototype%"]),
   ("bootstrapDataView", ["%DataView%"]),
   ("bootstrapJSON", ["%JSON%"]),
   ("bootstrapWeakMapPrototype", ["%WeakMap.prototype%"]),
   ("bootstrapWeakMap", ["%WeakMap%"]),
   ("bootstrapWeakSetPrototype", ["%WeakSet.prototype%"]),
   ("bootstrapWeakSet", ["%WeakSet%"]),
   ("bootstrapWeakRefPrototype", ["%WeakRef.prototype%"]),
   ("bootstrapWeakRef", ["%WeakRef%"]),
   ("bootstrapFinalizationRegistryPrototype", ["%FinalizationRegistry.prototype%"]),
   ("bootstrapFinalizationRegistry", ["%FinalizationRegistry%"])]

/-- Modelled from the spec: AddRestrictedFunctionProperties installs the
restricted caller and arguments accessor properties (getter and setter both
the %ThrowTypeError% intrinsic, non-enumerable, configurable) on the given
function prototype object; its execution is recorded in the log. -/
def AddRestrictedFunctionProperties (F : JSValue) (st : BootState) : BootState :=
  let thrower := intrinsicLookup st.realm "%ThrowTypeError%"
  match F with
  | .objV id =>
      match st.heap.get? id with
      | some obj =>
          let props2 :=
            updateA "arguments" (PropDesc.accessor thrower thrower false true)
              (updateA "caller" (PropDesc.accessor thrower thrower false true) obj.properties)
          let obj2 := { obj with properties := props2 }
          { st with heap := st.heap.set id obj2,
                    log := st.log ++ ["AddRestrictedFunctionProperties"] }
      | none => { st with log := st.log ++ ["AddRestrictedFunctionProperties"] }
  | _ => { st with log := st.log ++ ["AddRestrictedFunctionProperties"] }

/-- Translation of CreateIntrinsics: start a fresh intrinsics table, create
%Object.prototype% first (OrdinaryObjectCreate with null prototype), run the
bootstrap routines in source order, then AddRestrictedFunctionProperties on
%Function.prototype%. -/
def CreateIntrinsics (st : BootState) : BootState :=
  let st1 := { st with realm := { st.realm with Intrinsics := [] } }
  let (h, objProto) := OrdinaryObjectCreate st1.heap .nullV
  let realm2 := { st1.realm with Intrinsics := [("%Object.prototype%", objProto)] }
  let st2 := { st1 with heap := h, realm := realm2 }
  let st3 := intrinsicsBootstrapSequence.foldl (fun acc e => bootstrapRoutine e.1 e.2 acc) st2
  AddRestrictedFunctionProperties (intrinsicLookup st3.realm "%Function.prototype%") st3

/-- A Realm record as freshly constructed (all fields undefined or empty). -/
def newRealm : Realm :=
  { Intrinsics := [], GlobalObject := .undefV, GlobalEnv := none, TemplateMap := [] }

/-- Translation of CreateRealm: new Realm record, CreateIntrinsics, then
GlobalObject and GlobalEnv undefined and TemplateMap the empty list. -/
def CreateRealm (heap : Heap) : BootState :=
  let st := CreateIntrinsics { realm := newRealm, heap := heap, log := [] }
  { st with realm :=
      { st.realm with GlobalObject := .undefV, GlobalEnv := none, TemplateMap := [] } }

/-- Translation of SetRealmGlobalObject: default an undefined global object
to a fresh ordinary object whose prototype is %Object.prototype%, default an
undefined this value to the global object, store the global object on the
realm and build the global environment. -/
def SetRealmGlobalObject (realmRec : Realm) (heap : Heap) (globalObj thisValue : JSValue) :
    Realm × Heap :=
  let (heap1, globalObj1) :=
    if globalObj = .undefV then
      OrdinaryObjectCreate heap (intrinsicLookup realmRec "%Object.prototype%")
    else (heap, globalObj)
  let thisValue1 := if thisValue = .undefV then globalObj1 else thisValue
  let realm1 := { realmRec with GlobalObject := globalObj1 }
  let newGlobalEnv := NewGlobalEnvironment globalObj1 thisValue1
  ({ realm1 with GlobalEnv := some newGlobalEnv }, heap1)

/-- Modelled from the spec: DefinePropertyOrThrow, specialised to the global
object of this protocol — an ordinary, extensible object on which defining a
(fully populated) property always succeeds and installs the descriptor
verbatim. -/
def DefinePropertyOrThrow (heap : Heap) (o : JSValue) (p : String) (desc : PropDesc) : Heap :=
  match o with
  | .objV id =>
      match heap.get? id with
      | some obj => heap.set id { obj with properties := updateA p desc obj.properties }
      | none => heap
  | _ => heap

/-- The function, constructor and other global property names installed by
SetDefaultGlobalBindings, in source order. -/
def globalBindingNames : List String :=
  ["eval", "isFinite", "isNaN", "parseFloat", "parseInt",
   "decodeURI", "decodeURIComponent", "encodeURI", "encodeURIComponent",
   "AggregateError", "Array", "ArrayBuffer", "Boolean", "BigInt",
   "BigInt64Array", "BigUint64Array", "DataView", "Date", "Error", "EvalError",
   "FinalizationRegistry", "Float32Array", "Float64Array", "Function",
   "Int8Array", "Int16Array", "Int32Array", "Map", "Number", "Object",
   "Promise", "Proxy", "RangeError", "ReferenceError", "RegExp", "Set",
   "String", "Symbol", "SyntaxError", "TypeError",
   "Uint8Array", "Uint8ClampedArray", "Uint16Array", "Uint32Array",
   "URIError", "WeakMap", "WeakRef", "WeakSet",
   "JSON", "Math", "Reflect"]

/-- Translation of SetDefaultGlobalBindings: define Infinity, NaN and
undefined as non-writable, non-enumerable, non-configurable data properties;
globalThis as a writable, non-enumerable, configurable data property whose
value is the global environment's GlobalThisValue; and each listed global
name as a writable, non-enumerable, configurable data property whose value is
the realm intrinsic of the same name. Returns the updated heap and the global
object. -/
def SetDefaultGlobalBindings (realmRec : Realm) (heap : Heap) : Heap × JSValue :=
  let globalObject := realmRec.GlobalObject
  let heap1 :=
    [("Infinity", JSValue.infV), ("NaN", JSValue.nanV), ("undefined", JSValue.undefV)].foldl
      (fun h nv => DefinePropertyOrThrow h globalObject nv.1 (.data nv.2 false false false))
      heap
  let gtv :=
    match realmRec.GlobalEnv with
    | some env => env.GlobalThisValue
    | none => .undefV
  let heap2 := DefinePropertyOrThrow heap1 globalObject "globalThis" (.data gtv true false true)
  let heap3 := globalBindingNames.foldl
    (fun h nm => DefinePropertyOrThrow h globalObject nm
      (.data (intrinsicLookup realmRec ("%" ++ nm ++ "%")) true false true))
    heap2
  (heap3, globalObject)

/-- The canonical realm construction session: CreateRealm on an empty heap. -/
def initialBoot : BootState := CreateRealm []

/-- The ordered log of bootstrap routines run by CreateIntrinsics. -/
def bootLog : List String := initialBoot.log

/-- Stage GlobalObjectSet of the canonical session: SetRealmGlobalObject with
undefined global object and undefined this value. -/
def realmAfterGlobal : Realm × Heap :=
  SetRealmGlobalObject initialBoot.realm initialBoot.heap .undefV .undefV

/-- Stage DefaultBindingsInstalled of the canonical session. -/
def heapAfterBindings : Heap × JSValue :=
  SetDefaultGlobalBindings realmAfterGlobal.1 realmAfterGlobal.2

/-- The GlobalThisValue of the canonical session's global environment. -/
def globalThisOfRealm : JSValue :=
  match realmAfterGlobal.1.GlobalEnv with
  | some env => env.GlobalThisValue
  | none => .undefV

/-- Own-property descriptor of the global object after the default bindings
are installed. -/
def globalProp (p : String) : Option PropDesc :=
  match heapAfterBindings.2 with
  | .objV id => (heapAfterBindings.1.get? id).bind (fun o => lookupA p o.properties)
  | _ => none

/-- The full own-property table of the global object after the default
bindings are installed. -/
def globalOwnProps : List (String × PropDesc) :=
  match heapAfterBindings.2 with
  | .objV id =>
      match heapAfterBindings.1.get? id with
      | some o => o.properties
      | none => []
  | _ => []

end Realms

namespace Worker

/-- A host-visible result as the worker observes it: an AbruptCompletion, a
promise-shaped object carrying PromiseState and PromiseResult, a module
record, or a plain normal value. -/
inductive JSResult where
  | abruptC (k : AbruptKind) (v : JSValue)
  | promiseObj (state : String) (result : JSValue)
  | moduleObj (id : Nat)
  | normalC (v : JSValue)
deriving Repr, DecidableEq

/-- The worker's `instanceof AbruptCompletion` test. -/
def isAbruptCompletion : JSResult → Bool
  | .abruptC _ _ => true
  | _ => false

/-- Reading `.PromiseState`: the state of a promise-shaped result, undefined
(`none`) on anything else. -/
def promiseState : JSResult → Option String
  | .promiseObj st _ => some st
  | _ => none

/-- Reading `.PromiseResult`. -/
def promiseResult : JSResult → JSValue
  | .promiseObj _ r => r
  | _ => .undefV

/-- Translation of the module branch of the worker's evaluate handler: create
the source-text module; if that is not abrupt, Link(); if that is not abrupt,
Evaluate(), converting a promise-shaped result in state "rejected" into a
Throw completion carrying the promise's rejection value. The module
transitions themselves (createSourceTextModule, Link, Evaluate) are host
black boxes, passed in as the `create` result and the `link` and `evaluate`
functions on the created module. -/
def workerEvaluateModule (create : JSResult) (link : JSResult → JSResult)
    (evaluate : JSResult → JSResult) : JSResult :=
  let result := create
  if isAbruptCompletion result then result
  else
    let module := result
    let result2 := link module
    if isAbruptCompletion result2 then result2
    else
      let result3 := evaluate module
      if promiseState result3 = some "rejected" then
        .abruptC .throwK (promiseResult result3)
      else result3

/-- Translation of the worker's promiseRejectionTracker callback: a "reject"
operation adds the promise to the tracked set, a "handle" operation removes
it, and any other operation leaves the set unchanged. The JS Set is modelled
as a duplicate-free list in insertion order. -/
def trackStep (promises : List Nat) (ev : Nat × String) : List Nat :=
  if ev.2 = "reject" then
    if ev.1 ∈ promises then promises else promises ++ [ev.1]
  else if ev.2 = "handle" then
    promises.filter (fun q => q != ev.1)
  else promises

/-- The tracked set after processing the given (promise, operation) tracker
invocations starting from the set `promises`. -/
def runTrackerFrom (promises : List Nat) : List (Nat × String) → List Nat
  | [] => promises
  | ev :: rest => runTrackerFrom (trackStep promises ev) rest

/-- The tracked-rejections set at session end: all tracker invocations of the
session folded over the initially empty set. -/
def runTracker (ops : List (Nat × String)) : List Nat :=
  runTrackerFrom [] ops

/-- Translation of the worker's end-of-session loop: one unhandledRejection
report is posted per promise remaining in the tracked set, in order. -/
def reportedRejections (ops : List (Nat × String)) : List Nat :=
  (runTracker ops).map (fun p => p)

/-- The payload of the last reject-or-handle operation observed for promise
`p`, folded left-to-right starting from `st` (helper for the tracked-set
invariant). -/
def lastRelFrom (p : Nat) (st : Option String) : List (Nat × String) → Option String
  | [] => st
  | ev :: rest =>
      lastRelFrom p
        (if ev.1 = p ∧ (ev.2 = "reject" ∨ ev.2 = "handle") then some ev.2 else st) rest

/-- The payload of the last reject-or-handle operation observed for promise
`p`, or `none` if there was none. -/
def lastRel (p : Nat) (ops : List (Nat × String)) : Option String :=
  lastRelFrom p none ops

end Worker

end E262

namespace E262

theorem get?_append_length {α : Type} (l : List α) (a : α) :
    (l ++ [a]).get? l.length = some a := by
  induction l with
  | nil => rfl
  | cons b l ih => simp [ih]

theorem set_append_length {α : Type} (l : List α) (a b : α) :
    (l ++ [a]).set l.length b = l ++ [b] := by
  induction l with
  | nil => rfl
  | cons c l ih => simp [List.set, ih]

namespace Assign

/-- C1: for every compound assignment node (operator other than plain `=`),
Evaluate_AssignmentExpression evaluates the target to a Reference exactly once
(the single `hL` step, the only one consuming the initial state `s`), GetValues
that Reference for the left operand, evaluates and GetValues the source for the
right operand, applies the binary operator obtained by stripping the trailing
`=` from the operator token, PutValues the result through the very same target
Reference `lref` that was read, and returns that result. -/
theorem compound_assignment_pipeline (node : AssignNode) (s s1 s2 s3 s4 s5 : EvalState)
    (lref rref : RV) (lval rval r u : JSValue)
    (hop : node.operator ≠ "=")
    (hL : Evaluate_Expression node.left s = (.normal lref, s1))
    (hLv : GetValue lref s1 = (.normal lval, s2))
    (hR : Evaluate_Expression node.right s2 = (.normal rref, s3))
    (hRv : GetValue rref s3 = (.normal rval, s4))
    (hB : EvaluateBinopValues (node.operator.dropRight 1) lval rval = .normal r)
    (hP : PutValue lref r s4 = (.normal u, s5)) :
    Evaluate_AssignmentExpression node s = (some (.normal r), s5) := by
  unfold Evaluate_AssignmentExpression
  simp only [if_neg hop, hL, hLv, hR, hRv, hB, hP]

/-- Witness for C1 at a target with an observable side effect: evaluating
`(c++, x) += 2` with x = 3, c = 0 increments the side-effect counter c exactly
once and stores 5 back through the same reference to x. -/
theorem compound_assignment_pipeline_witness :
    Evaluate_AssignmentExpression ⟨"+=", .seqInc "c" (.ident "x"), .lit (.numV 2)⟩
        ⟨[("x", .numV 3), ("c", .numV 0)], []⟩ =
      (some (.normal (.numV 5)), ⟨[("x", .numV 5), ("c", .numV 1)], []⟩) :=
  compound_assignment_pipeline ⟨"+=", .seqInc "c" (.ident "x"), .lit (.numV 2)⟩
    ⟨[("x", .numV 3), ("c", .numV 0)], []⟩
    ⟨[("x", .numV 3), ("c", .numV 1)], []⟩
    ⟨[("x", .numV 3), ("c", .numV 1)], []⟩
    ⟨[("x", .numV 3), ("c", .numV 1)], []⟩
    ⟨[("x", .numV 3), ("c", .numV 1)], []⟩
    ⟨[("x", .numV 5), ("c", .numV 1)], []⟩
    (.ref ⟨.envBase, "x", false⟩) (.val (.numV 2))
    (.numV 3) (.numV 2) (.numV 5) .undefV
    (by decide) rfl rfl rfl rfl rfl rfl

/-- C2: for a plain `=` assignment of an anonymous function expression to a
simple identifier target, the created function object (which has no own
"name" property) receives the referenced name of the target via
SetFunctionName before PutValue, so its name becomes the target identifier;
assigning a named function expression leaves its existing name unchanged. -/
theorem assignment_function_name_inference (x fname : String) (s : EvalState) :
    ((Evaluate_AssignmentExpression ⟨"=", .ident x, .funcExpr none⟩ s).1 =
        some (.normal (.objV s.heap.length)) ∧
      ownProp (Evaluate_AssignmentExpression ⟨"=", .ident x, .funcExpr none⟩ s).2
        s.heap.length "name" = some (.strV x)) ∧
    ((Evaluate_AssignmentExpression ⟨"=", .ident x, .funcExpr (some fname)⟩ s).1 =
        some (.normal (.objV s.heap.length)) ∧
      ownProp (Evaluate_AssignmentExpression ⟨"=", .ident x, .funcExpr (some fname)⟩ s).2
        s.heap.length "name" = some (.strV fname)) := by
  rcases hx : lookupA x s.env with _ | v <;>
    simp [Evaluate_AssignmentExpression, Evaluate_Expression, GetValue, PutValue,
      HasOwnProperty, SetFunctionName, GetReferencedName, IsAnonymousFunctionDefinition,
      IsIdentifierRef, isObjectLiteral, isArrayLiteral, ownProp, lookupA,
      get?_append_length, set_append_length, hx]

/-- C3: whichever sub-step of Evaluate_AssignmentExpression yields an abrupt
completion first — evaluating the target, GetValue on the target Reference,
evaluating the source, GetValue on the source, or the binary-operator
application — that abrupt completion is returned unchanged, and the final
state is exactly the state at the abrupt point, so the subsequent PutValue
write is never performed (no binding or property is mutated past that point).
The HasOwnProperty sub-step, applied to a freshly created function object, is
always a normal completion in code and model alike, so it has no abrupt
clause. Both the compound path and the plain `=` simple-target path are
covered. -/
theorem assignment_abrupt_propagation (node : AssignNode) (s : EvalState)
    (k : AbruptKind) (v : JSValue) (t : Option String) :
    (node.operator ≠ "=" →
      ∀ s1, Evaluate_Expression node.left s = (.abrupt k v t, s1) →
        Evaluate_AssignmentExpression node s = (some (.abrupt k v t), s1)) ∧
    (node.operator ≠ "=" →
      ∀ lref s1 s2, Evaluate_Expression node.left s = (.normal lref, s1) →
        GetValue lref s1 = (.abrupt k v t, s2) →
        Evaluate_AssignmentExpression node s = (some (.abrupt k v t), s2)) ∧
    (node.operator ≠ "=" →
      ∀ lref lval s1 s2 s3, Evaluate_Expression node.left s = (.normal lref, s1) →
        GetValue lref s1 = (.normal lval, s2) →
        Evaluate_Expression node.right s2 = (.abrupt k v t, s3) →
        Evaluate_AssignmentExpression node s = (some (.abrupt k v t), s3)) ∧
    (node.operator ≠ "=" →
      ∀ lref lval rref s1 s2 s3 s4, Evaluate_Expression node.left s = (.normal lref, s1) →
        GetValue lref s1 = (.normal lval, s2) →
        Evaluate_Expression node.right s2 = (.normal rref, s3) →
        GetValue rref s3 = (.abrupt k v t, s4) →
        Evaluate_AssignmentExpression node s = (some (.abrupt k v t), s4)) ∧
    (node.operator ≠ "=" →
      ∀ lref lval rref rval s1 s2 s3 s4,
        Evaluate_Expression node.left s = (.normal lref, s1) →
        GetValue lref s1 = (.normal lval, s2) →
        Evaluate_Expression node.right s2 = (.normal rref, s3) →
        GetValue rref s3 = (.normal rval, s4) →
        EvaluateBinopValues (node.operator.dropRight 1) lval rval = .abrupt k v t →
        Evaluate_AssignmentExpression node s = (some (.abrupt k v t), s4)) ∧
    (node.operator = "=" →
      (!isObjectLiteral node.left && !isArrayLiteral node.left) = true →
      ∀ s1, Evaluate_Expression node.left s = (.abrupt k v t, s1) →
        Evaluate_AssignmentExpression node s = (some (.abrupt k v t), s1)) ∧
    (node.operator = "=" →
      (!isObjectLiteral node.left && !isArrayLiteral node.left) = true →
      ∀ lref s1 s2, Evaluate_Expression node.left s = (.normal lref, s1) →
        Evaluate_Expression node.right s1 = (.abrupt k v t, s2) →
        Evaluate_AssignmentExpression node s = (some (.abrupt k v t), s2)) ∧
    (node.operator = "=" →
      (!isObjectLiteral node.left && !isArrayLiteral node.left) = true →
      ∀ lref rref s1 s2 s3, Evaluate_Expression node.left s = (.normal lref, s1) →
        Evaluate_Expression node.right s1 = (.normal rref, s2) →
        GetValue rref s2 = (.abrupt k v t, s3) →
        Evaluate_AssignmentExpression node s = (some (.abrupt k v t), s3)) := by
  refine ⟨?_, ?_, ?_, ?_, ?_, ?_, ?_, ?_⟩
  · intro hop s1 hL
    unfold Evaluate_AssignmentExpression
    simp only [if_neg hop, hL]
  · intro hop lref s1 s2 hL hLv
    unfold Evaluate_AssignmentExpression
    simp only [if_neg hop, hL, hLv]
  · intro hop lref lval s1 s2 s3 hL hLv hR
    unfold Evaluate_AssignmentExpression
    simp only [if_neg hop, hL, hLv, hR]
  · intro hop lref lval rref s1 s2 s3 s4 hL hLv hR hRv
    unfold Evaluate_AssignmentExpression
    simp only [if_neg hop, hL, hLv, hR, hRv]
  · intro hop lref lval rref rval s1 s2 s3 s4 hL hLv hR hRv hB
    unfold Evaluate_AssignmentExpression
    simp only [if_neg hop, hL, hLv, hR, hRv, hB]
  · intro hop hpat s1 hL
    unfold Evaluate_AssignmentExpression
    simp only [if_pos hop, if_pos hpat, hL]
  · intro hop hpat lref s1 s2 hL hR
    unfold Evaluate_AssignmentExpression
    simp only [if_pos hop, if_pos hpat, hL, hR]
  · intro hop hpat lref rref s1 s2 s3 hL hR hRv
    unfold Evaluate_AssignmentExpression
    simp only [if_pos hop, if_pos hpat, hL, hR, hRv]

/-- Witness for C3: a compound assignment whose target throws propagates that
throw completion unchanged and performs no write. -/
theorem assignment_abrupt_propagation_witness :
    Evaluate_AssignmentExpression ⟨"+=", .throwExpr (.strV "boom"), .lit .undefV⟩ ⟨[], []⟩ =
      (some (.abrupt .throwK (.strV "boom") none), ⟨[], []⟩) :=
  (assignment_abrupt_propagation ⟨"+=", .throwExpr (.strV "boom"), .lit .undefV⟩ ⟨[], []⟩
    .throwK (.strV "boom") none).1 (by decide) ⟨[], []⟩ rfl

/-- C4 counterexample: for a plain `=` assignment whose target is an object
literal, Evaluate_AssignmentExpression does not delegate to any
destructuring-assignment evaluation and returns no Completion at all: the
JavaScript function falls off its end, yielding host-level undefined
(rendered `none`), with the state untouched. -/
theorem destructuring_target_counterexample :
    Evaluate_AssignmentExpression ⟨"=", .objectLiteral, .lit (.numV 1)⟩ ⟨[], []⟩ =
      (none, ⟨[], []⟩) := rfl

/-- C4 amended: for every plain `=` assignment whose target is an object or
array literal, Evaluate_AssignmentExpression performs no evaluation at all and
falls through, returning host-level undefined (`none`) rather than a
Completion: the Reference/GetValue/PutValue path is indeed not taken, but no
destructuring-assignment delegation exists either. -/
theorem destructuring_target_falls_through (l r : Expr) (s : EvalState)
    (h : isObjectLiteral l = true ∨ isArrayLiteral l = true) :
    Evaluate_AssignmentExpression ⟨"=", l, r⟩ s = (none, s) := by
  unfold Evaluate_AssignmentExpression
  rcases h with h | h <;> simp [h]

/-- Witness for the amended C4 at an array-literal target. -/
theorem destructuring_target_falls_through_witness :
    Evaluate_AssignmentExpression ⟨"=", .arrayLiteral, .lit .undefV⟩ ⟨[], []⟩ =
      (none, ⟨[], []⟩) :=
  destructuring_target_falls_through .arrayLiteral (.lit .undefV) ⟨[], []⟩ (Or.inr rfl)

end Assign

end E262

namespace E262
namespace Realms

set_option maxRecDepth 100000

/-- C5 counterexample: the claimed bootstrap order puts the collection types
(Set, Map, WeakMap/WeakSet/WeakRef, FinalizationRegistry) before the
generator/async-function families, but in the code bootstrapGeneratorFunction
runs strictly before bootstrapWeakMapPrototype: the Weak collections and
FinalizationRegistry are bootstrapped last, after DataView/JSON. -/
theorem intrinsics_order_counterexample :
    bootLog.indexOf "bootstrapGeneratorFunction" < bootLog.indexOf "bootstrapWeakMapPrototype" := by
  decide

/-- C5 amended: CreateIntrinsics builds %Object.prototype% first (it is the
first entry of the intrinsics table) and then runs the bootstrap routines in
exactly this order — function/object primitives, global functions, Object,
the Error family, Function, the iterator family, the primitive wrapper types,
Promise, Proxy/Reflect, Math, Date/RegExp, Set/Map, the generator and
async-function families, the typed-array family, DataView/JSON, then the Weak
collections (WeakMap, WeakSet, WeakRef) and FinalizationRegistry, with
AddRestrictedFunctionProperties on %Function.prototype% as the final step. -/
theorem intrinsics_bootstrap_order :
    initialBoot.realm.Intrinsics.head?.map Prod.fst = some "%Object.prototype%" ∧
    bootLog =
      ["bootstrapFunctionPrototype", "bootstrapObjectPrototype", "bootstrapThrowTypeError",
       "bootstrapEval", "bootstrapIsFinite", "bootstrapIsNaN", "bootstrapParseFloat",
       "bootstrapParseInt", "bootstrapURIHandling",
       "bootstrapObject",
       "bootstrapErrorPrototype", "bootstrapError", "bootstrapNativeError",
       "bootstrapAggregateErrorPrototype", "bootstrapAggregateError",
       "bootstrapFunction",
       "bootstrapIteratorPrototype", "bootstrapAsyncIteratorPrototype",
       "bootstrapArrayIteratorPrototype", "bootstrapMapIteratorPrototype",
       "bootstrapSetIteratorPrototype", "bootstrapStringIteratorPrototype",
       "bootstrapRegExpStringIteratorPrototype", "bootstrapForInIteratorPrototype",
       "bootstrapStringPrototype", "bootstrapString",
       "bootstrapArrayPrototype", "bootstrapArray",
       "bootstrapBooleanPrototype", "bootstrapBoolean",
       "bootstrapNumberPrototype", "bootstrapNumber",
       "bootstrapBigIntPrototype", "bootstrapBigInt",
       "bootstrapSymbolPrototype", "bootstrapSymbol",
       "bootstrapPromisePrototype", "bootstrapPromise",
       "bootstrapProxy", "bootstrapReflect", "bootstrapMath",
       "bootstrapDatePrototype", "bootstrapDate",
       "bootstrapRegExpPrototype", "bootstrapRegExp",
       "bootstrapSetPrototype", "bootstrapSet",
       "bootstrapMapPrototype", "bootstrapMap",
       "bootstrapGeneratorFunctionPrototypePrototype", "bootstrapGeneratorFunctionPrototype",
       "bootstrapGeneratorFunction",
       "bootstrapAsyncFunctionPrototype", "bootstrapAsyncFunction",
       "bootstrapAsyncGeneratorFunctionPrototypePrototype",
       "bootstrapAsyncGeneratorFunctionPrototype", "bootstrapAsyncGeneratorFunction",
       "bootstrapAsyncFromSyncIteratorPrototype",
       "bootstrapArrayBufferPrototype", "bootstrapArrayBuffer",
       "bootstrapTypedArrayPrototype", "bootstrapTypedArray",
       "bootstrapTypedArrayPrototypes", "bootstrapTypedArrayConstructors",
       "bootstrapDataViewPrototype", "bootstrapDataView",
       "bootstrapJSON",
       "bootstrapWeakMapPrototype", "bootstrapWeakMap",
       "bootstrapWeakSetPrototype", "bootstrapWeakSet",
       "bootstrapWeakRefPrototype", "bootstrapWeakRef",
       "bootstrapFinalizationRegistryPrototype", "bootstrapFinalizationRegistry",
       "AddRestrictedFunctionProperties"] := by
  exact ⟨rfl, rfl⟩

/-- C6: for every realm whose intrinsics table binds %Object.prototype%,
SetRealmGlobalObject with undefined globalObj allocates the global object as a
fresh ordinary object (the new last heap entry) whose prototype is
%Object.prototype%; the undefined thisValue defaults to that global object;
and the realm's GlobalEnv becomes a Global environment record whose Object
record has the global object as binding object with IsWithEnvironment false,
whose GlobalThisValue is the global object, whose Declarative record is fresh
and empty, whose VarNames list is empty, and whose OuterEnv is null. -/
theorem set_realm_global_object (realmRec : Realm) (heap : Heap) (p : JSValue)
    (h : lookupA "%Object.prototype%" realmRec.Intrinsics = some p) :
    (SetRealmGlobalObject realmRec heap .undefV .undefV).1.GlobalObject = .objV heap.length ∧
    (SetRealmGlobalObject realmRec heap .undefV .undefV).2 = heap ++ [⟨p, true, []⟩] ∧
    (SetRealmGlobalObject realmRec heap .undefV .undefV).1.GlobalEnv =
      some ⟨⟨.objV heap.length, false, .nullV⟩, .objV heap.length, ⟨.nullV, []⟩, [], .nullV⟩ := by
  simp [SetRealmGlobalObject, OrdinaryObjectCreate, MakeBasicObject, setPrototype,
    NewGlobalEnvironment, NewObjectEnvironment, intrinsicLookup, h,
    get?_append_length, set_append_length]

/-- Witness for C6 at a one-intrinsic realm over a one-object heap. -/
theorem set_realm_global_object_witness :
    (SetRealmGlobalObject ⟨[("%Object.prototype%", .objV 0)], .undefV, none, []⟩
        [⟨.nullV, true, []⟩] .undefV .undefV).1.GlobalObject = .objV 1 ∧
    (SetRealmGlobalObject ⟨[("%Object.prototype%", .objV 0)], .undefV, none, []⟩
        [⟨.nullV, true, []⟩] .undefV .undefV).2 =
      [⟨.nullV, true, []⟩, ⟨.objV 0, true, []⟩] ∧
    (SetRealmGlobalObject ⟨[("%Object.prototype%", .objV 0)], .undefV, none, []⟩
        [⟨.nullV, true, []⟩] .undefV .undefV).1.GlobalEnv =
      some ⟨⟨.objV 1, false, .nullV⟩, .objV 1, ⟨.nullV, []⟩, [], .nullV⟩ :=
  set_realm_global_object ⟨[("%Object.prototype%", .objV 0)], .undefV, none, []⟩
    [⟨.nullV, true, []⟩] (.objV 0) rfl

/-- C7: after SetDefaultGlobalBindings in the canonical realm construction
session, the global object has Infinity, NaN and undefined as non-writable,
non-configurable data properties with those values; globalThis as a writable,
configurable data property whose value is the global environment's
GlobalThisValue; and every listed global function, constructor and namespace
name as a writable, configurable data property whose value is the realm
intrinsic of the same name (which exists: it is not undefined). -/
theorem default_global_bindings :
    globalProp "Infinity" = some (.data .infV false false false) ∧
    globalProp "NaN" = some (.data .nanV false false false) ∧
    globalProp "undefined" = some (.data .undefV false false false) ∧
    globalProp "globalThis" = some (.data globalThisOfRealm true false true) ∧
    (globalBindingNames.all (fun nm =>
      decide (globalProp nm =
        some (.data (intrinsicLookup realmAfterGlobal.1 ("%" ++ nm ++ "%")) true false true)) &&
      decide (intrinsicLookup realmAfterGlobal.1 ("%" ++ nm ++ "%") ≠ .undefV))) = true := by
  decide

/-- C10: the properties defined by SetDefaultGlobalBindings are exactly
Infinity, NaN, undefined, globalThis and the listed global names (the global
object starts with no own properties), and every one of them is defined with
Enumerable false. -/
theorem default_global_bindings_not_enumerable :
    globalOwnProps.map Prod.fst =
      ["Infinity", "NaN", "undefined", "globalThis"] ++ globalBindingNames ∧
    (globalOwnProps.all (fun e => !descEnumerable e.2)) = true := by
  exact ⟨by decide, by decide⟩

end Realms
end E262

namespace E262

namespace Worker

theorem lastRelFrom_eq (p : Nat) (ops : List (Nat × String)) (st : Option String) :
    lastRelFrom p st ops =
      match lastRel p ops with
      | some o => some o
      | none => st := by
  induction ops generalizing st with
  | nil => simp [lastRelFrom, lastRel]
  | cons ev rest ih =>
      by_cases hr : ev.1 = p ∧ (ev.2 = "reject" ∨ ev.2 = "handle")
      · simp only [lastRel, lastRelFrom, if_pos hr]
        simp only [ih]
        rcases h : lastRel p rest with _ | o <;> simp [lastRel, h]
      · simp only [lastRel, lastRelFrom, if_neg hr]
        simp only [ih]
        rcases h : lastRel p rest with _ | o <;> simp [lastRel, h]

theorem mem_runTrackerFrom (p : Nat) (ops : List (Nat × String)) (acc : List Nat) :
    p ∈ runTrackerFrom acc ops ↔
      (lastRel p ops = some "reject" ∨ (lastRel p ops = none ∧ p ∈ acc)) := by
  induction ops generalizing acc with
  | nil => simp [runTrackerFrom, lastRel, lastRelFrom]
  | cons ev rest ih =>
      obtain ⟨q, op⟩ := ev
      have hstep : lastRel p ((q, op) :: rest) =
          match lastRel p rest with
          | some o => some o
          | none => if q = p ∧ (op = "reject" ∨ op = "handle") then some op else none := by
        rw [show lastRel p ((q, op) :: rest) =
            lastRelFrom p (if q = p ∧ (op = "reject" ∨ op = "handle") then some op else none)
              rest from rfl]
        rw [lastRelFrom_eq]
      rw [show runTrackerFrom acc ((q, op) :: rest) = runTrackerFrom (trackStep acc (q, op)) rest
          from rfl]
      rw [ih, hstep]
      rcases h : lastRel p rest with _ | o
      · simp only [reduceCtorEq, false_or, true_and]
        by_cases hq : q = p
        · subst hq
          by_cases hrj : op = "reject"
          · subst hrj
            by_cases hp : q ∈ acc <;> simp [trackStep, hp]
          · by_cases hh : op = "handle"
            · subst hh
              simp [trackStep, List.mem_filter]
            · simp [trackStep, hrj, hh]
        · have hC : (if q = p ∧ (op = "reject" ∨ op = "handle") then some op else none) = none := by
            simp [hq]
          rw [hC]
          simp only [reduceCtorEq, false_or, true_and]
          by_cases hrj : op = "reject"
          · subst hrj
            by_cases hqa : q ∈ acc
            · simp [trackStep, hqa]
            · simp [trackStep, hqa, (Ne.symm hq : p ≠ q)]
          · by_cases hh : op = "handle"
            · subst hh
              simp [trackStep, hrj, List.mem_filter, (Ne.symm hq : p ≠ q)]
            · simp [trackStep, hrj, hh]
      · simp

theorem lastRelFrom_append (p : Nat) (st : Option String) (l1 l2 : List (Nat × String)) :
    lastRelFrom p st (l1 ++ l2) = lastRelFrom p (lastRelFrom p st l1) l2 := by
  induction l1 generalizing st with
  | nil => rfl
  | cons ev rest ih =>
      simp only [List.cons_append, lastRelFrom, List.append_eq]
      rw [ih]

theorem lastRel_reject_iff (p : Nat) (ops : List (Nat × String)) :
    lastRel p ops = some "reject" ↔
      ∃ i, ops.get? i = some (p, "reject") ∧
        ∀ j, i < j → ops.get? j ≠ some (p, "handle") := by
  induction ops using List.reverseRecOn with
  | nil => simp [lastRel, lastRelFrom]
  | append_singleton l e ih =>
      obtain ⟨q, op⟩ := e
      have hsplit : lastRel p (l ++ [(q, op)]) =
          if q = p ∧ (op = "reject" ∨ op = "handle") then some op else lastRel p l := by
        simp only [lastRel]
        rw [lastRelFrom_append]
        rfl
      by_cases hr : q = p ∧ (op = "reject" ∨ op = "handle")
      · obtain ⟨hq, hop⟩ := hr
        subst hq
        rcases hop with hop | hop
        · subst hop
          rw [hsplit]
          simp only [if_pos
            (show q = q ∧ ("reject" = "reject" ∨ "reject" = "handle") from ⟨rfl, Or.inl rfl⟩)]
          constructor
          · intro _
            refine ⟨l.length, get?_append_length l _, ?_⟩
            intro j hj
            rw [List.get?_len_le (by simpa using hj)]
            simp
          · intro _
            rfl
        · subst hop
          rw [hsplit]
          simp only [if_pos
            (show q = q ∧ ("handle" = "reject" ∨ "handle" = "handle") from ⟨rfl, Or.inr rfl⟩)]
          constructor
          · intro hcon
            exact absurd hcon (by simp)
          · rintro ⟨i, hi, hall⟩
            rcases lt_trichotomy i l.length with hlt | heq | hgt
            · exact absurd (get?_append_length l _) (by
                have := hall l.length hlt
                intro hcon
                exact this hcon)
            · subst heq
              rw [get?_append_length] at hi
              simp at hi
            · rw [List.get?_len_le (by simpa using hgt)] at hi
              simp at hi
      · rw [hsplit, if_neg hr, ih]
        constructor
        · rintro ⟨i, hi, hall⟩
          have hilt : i < l.length := by
            by_contra hge
            rw [List.get?_len_le (Nat.le_of_not_lt hge)] at hi
            simp at hi
          refine ⟨i, ?_, ?_⟩
          · rw [List.get?_append hilt]
            exact hi
          · intro j hj
            rcases lt_trichotomy j l.length with hjl | hje | hjg
            · rw [List.get?_append hjl]
              exact hall j hj
            · subst hje
              rw [get?_append_length]
              intro hcon
              simp only [Option.some.injEq, Prod.mk.injEq] at hcon
              exact hr ⟨hcon.1, Or.inr hcon.2⟩
            · rw [List.get?_len_le (by simpa using hjg)]
              simp
        · rintro ⟨i, hi, hall⟩
          rcases lt_trichotomy i l.length with hlt | heq | hgt
          · refine ⟨i, ?_, ?_⟩
            · rw [List.get?_append hlt] at hi
              exact hi
            · intro j hj
              by_cases hjl : j < l.length
              · have := hall j hj
                rw [List.get?_append hjl] at this
                exact this
              · rw [List.get?_len_le (Nat.le_of_not_lt hjl)]
                simp
          · subst heq
            rw [get?_append_length] at hi
            simp only [Option.some.injEq, Prod.mk.injEq] at hi
            exact absurd ⟨hi.1, Or.inl hi.2⟩ hr
          · rw [List.get?_len_le (by simpa using hgt)] at hi
            simp at hi

/-- C8: in module evaluation mode the worker creates the module, then Links,
then Evaluates, in that order. An abrupt module creation is the final result
for every Link and Evaluate behaviour (so they are never attempted); after a
normal creation, an abrupt Link() is the final result for every Evaluate
behaviour; after a normal creation and Link(), an Evaluate() resolving to a
promise-shaped result in state "rejected" is converted to a Throw completion
carrying the promise's rejection value, and any other Evaluate() result is
returned as is. -/
theorem worker_module_evaluation (create : JSResult) (link evaluate : JSResult → JSResult)
    (k : AbruptKind) (v : JSValue) :
    (∀ k2 v2, workerEvaluateModule (.abruptC k2 v2) link evaluate = .abruptC k2 v2) ∧
    (isAbruptCompletion create = false → link create = .abruptC k v →
      workerEvaluateModule create link evaluate = .abruptC k v) ∧
    (isAbruptCompletion create = false → isAbruptCompletion (link create) = false →
      evaluate create = .promiseObj "rejected" v →
      workerEvaluateModule create link evaluate = .abruptC .throwK v) ∧
    (isAbruptCompletion create = false → isAbruptCompletion (link create) = false →
      promiseState (evaluate create) ≠ some "rejected" →
      workerEvaluateModule create link evaluate = evaluate create) := by
  refine ⟨?_, ?_, ?_, ?_⟩
  · intro k2 v2
    simp [workerEvaluateModule, isAbruptCompletion]
  · intro h1 h2
    unfold workerEvaluateModule
    dsimp only
    rw [h1]
    simp [h2, isAbruptCompletion]
  · intro h1 h2 h3
    unfold workerEvaluateModule
    dsimp only
    rw [h1]
    simp only [Bool.false_eq_true, if_false]
    rw [h2]
    simp only [Bool.false_eq_true, if_false]
    rw [h3]
    simp [promiseState, promiseResult]
  · intro h1 h2 h3
    unfold workerEvaluateModule
    dsimp only
    rw [h1]
    simp only [Bool.false_eq_true, if_false]
    rw [h2]
    simp only [Bool.false_eq_true, if_false]
    rw [if_neg h3]

/-- Witness for C8: a module whose Evaluate() yields a rejected promise makes
the worker produce a Throw completion carrying the rejection value. -/
theorem worker_module_evaluation_witness :
    workerEvaluateModule (.moduleObj 0) (fun _ => .normalC .undefV)
        (fun _ => .promiseObj "rejected" (.strV "err")) =
      .abruptC .throwK (.strV "err") :=
  (worker_module_evaluation (.moduleObj 0) (fun _ => .normalC .undefV)
      (fun _ => .promiseObj "rejected" (.strV "err")) .throwK (.strV "err")).2.2.1
    rfl rfl rfl

/-- C9: at session end the tracked-rejections set contains a promise exactly
when some "reject" operation for it was observed and no later "handle"
operation for the same promise followed; the reported unhandledRejection list
is exactly that set; and any operation other than "reject" and "handle"
leaves the set unchanged. -/
theorem rejection_tracker_invariant (ops : List (Nat × String)) (p : Nat) :
    (p ∈ runTracker ops ↔
      ∃ i, ops.get? i = some (p, "reject") ∧
        ∀ j, i < j → ops.get? j ≠ some (p, "handle")) ∧
    reportedRejections ops = runTracker ops ∧
    (∀ promises q op2, op2 ≠ "reject" → op2 ≠ "handle" →
      trackStep promises (q, op2) = promises) := by
  refine ⟨?_, ?_, ?_⟩
  · rw [show runTracker ops = runTrackerFrom [] ops from rfl]
    rw [mem_runTrackerFrom, ← lastRel_reject_iff]
    simp
  · simp [reportedRejections]
  · intro promises q op2 h1 h2
    simp [trackStep, h1, h2]

/-- Witness for C9: with operations reject 1, reject 2, handle 1, then an
unrelated operation on 3, promise 2 is in the tracked set at session end. -/
theorem rejection_tracker_invariant_witness :
    2 ∈ runTracker [(1, "reject"), (2, "reject"), (1, "handle"), (3, "other")] :=
  (rejection_tracker_invariant [(1, "reject"), (2, "reject"), (1, "handle"), (3, "other")] 2).1.mpr
    ⟨1, rfl, by
      intro j hj
      rcases j with _ | _ | _ | _ | j
      · omega
      · omega
      · decide
      · decide
      · simp [List.get?]⟩

end Worker

end E262
